import Mathlib

/-!
Shallow embedding of the Ladder CAD-import addon (ladder/__init__.py) and
proofs about its specification.

Numbers are modelled as rationals (the Python source only ever combines
decimal literals with +, *, /, min and comparisons, all exact on these
inputs).  The external gmsh engine and the Blender scene are modelled as
oracles: a record of booleans saying which engine call succeeds plus the
data the successful calls would return.  Each Python method is translated
branch by branch; `try/except` blocks become case splits on the
corresponding oracle flag.
-/

namespace Ladder

/-! ## Unit scale table (source lines 70-77)

`UNIT_SCALES` is a Python dict literal; it is modelled as an association
list in the same order, looked up with `List.lookup` (dict membership test
plus indexing in the source). -/

def UNIT_SCALES : List (String × ℚ) :=
  [("MICROMETERS", 1/1000000),
   ("MILLIMETERS", 1/1000),
   ("CENTIMETERS", 1/100),
   ("METERS", 1),
   ("INCHES", 254/10000),
   ("FEET", 3048/10000)]

/-! ## ImportProgress (source lines 605-653) -/

structure ImportProgress where
  total_files : Nat
  current_file : Nat
  current_filename : String
  phase : String
  is_running : Bool
  was_cancelled : Bool
deriving DecidableEq

/-- Constructor state (source lines 608-614). -/
def ImportProgress.init : ImportProgress :=
  { total_files := 0, current_file := 0, current_filename := "", phase := ""
    is_running := false, was_cancelled := false }

/-- `start` (source lines 616-622): resets every field for a new batch. -/
def ImportProgress.start (_p : ImportProgress) (total : Nat) : ImportProgress :=
  { total_files := total, current_file := 0, current_filename := "", phase := ""
    is_running := true, was_cancelled := false }

/-- `update` (source lines 624-627). -/
def ImportProgress.update (p : ImportProgress) (file_index : Nat) (filename : String)
    (phase : String) : ImportProgress :=
  { p with current_file := file_index, current_filename := filename, phase := phase }

/-- `stop` (source lines 629-630). -/
def ImportProgress.stop (p : ImportProgress) : ImportProgress :=
  { p with is_running := false }

/-- `cancel` (source lines 632-634). -/
def ImportProgress.cancel (p : ImportProgress) : ImportProgress :=
  { p with was_cancelled := true, is_running := false }

/-- `progress_percent` (source lines 636-643).  Python `0.5` is the exact
rational 1/2. -/
def ImportProgress.progress_percent (p : ImportProgress) : ℚ :=
  if p.total_files = 0 then 0
  else
    let base : ℚ := ((p.current_file : ℚ) / (p.total_files : ℚ)) * 100
    let base : ℚ :=
      if p.phase = "converting" then base + ((1/2 : ℚ) / (p.total_files : ℚ)) * 100
      else base
    min base 100

/-- `status_text` (source lines 645-650).  The f-string is the literal
concatenation below, including the leading addon tag. -/
def ImportProgress.status_text (p : ImportProgress) : String :=
  if p.is_running = false then ""
  else
    let phase_text : String := if p.phase = "converting" then "Converting" else "Importing"
    "Ladder: " ++ phase_text ++ " " ++ p.current_filename ++ " (" ++
      toString (p.current_file + 1) ++ "/" ++ toString p.total_files ++ ")"

/-! ## Unit estimation (source lines 212-221) -/

/-- Threshold heuristic applied to the largest bounding-box dimension. -/
def estimate_unit (max_dim : ℚ) : String :=
  if max_dim > 1000 then "MILLIMETERS"
  else if max_dim > 10 then "CENTIMETERS"
  else if max_dim > 1/10 then "METERS"
  else "MILLIMETERS"

/-! ## Unit-scale resolution (source lines 1038-1046)

In `_process_current_file` the scale starts at 1.0; for AUTO the detected
unit is looked up in `UNIT_SCALES` (the dict returned by `get_model_info`
always carries the key `estimated_unit`, so the `.get` default
`'MILLIMETERS'` at line 1042 is unreachable and the looked-up value is the
field itself); a user-specified unit goes through the same table.  A unit
absent from the table leaves the initial 1.0. -/

def resolve_unit_scale (source_unit : String) (estimated_unit : String) : ℚ :=
  if source_unit = "AUTO" then
    match UNIT_SCALES.lookup estimated_unit with
    | some s => s
    | none => 1
  else
    match UNIT_SCALES.lookup source_unit with
    | some s => s
    | none => 1

/-! ## The gmsh engine oracle

`GmshManager.get_model_info` (source lines 149-244) and
`GmshManager.convert_to_stl` (source lines 246-333) drive the external
gmsh library.  A `GmshEngine` records, for one call, which engine
invocation succeeds and what data the successful invocations return.
`try/except` blocks in the source become case splits on these flags:

* `available`   — `cls.is_available()` (lines 164, 262);
* `init_ok`     — the `initialize` / `setNumber` / `model.add` group
  before the load; its failure reaches the outer handler before any
  model data is produced;
* `load_ok`     — `importShapes`+`synchronize` or `merge` (inner try);
* `entities_ok` — `gmsh.model.getEntities()`;
* `bbox_ok`     — `gmsh.model.getBoundingBox(-1, -1)` (inner try);
* `get_name`    — `gmsh.model.getEntityName(dim, tag)`, `Except.error`
  modelling a raised exception.

The trailing `gmsh.finalize()` needs no flag: if it raises after the
info dict is assembled, the outer handler returns the identical dict,
so the returned value is unchanged. -/

structure GmshEngine where
  available : Bool
  init_ok : Bool
  load_ok : Bool
  entities_ok : Bool
  entities : List (Nat × Nat)
  bbox_ok : Bool
  xmin : ℚ
  ymin : ℚ
  zmin : ℚ
  xmax : ℚ
  ymax : ℚ
  zmax : ℚ
  get_name : Nat × Nat → Except Unit String

/-- The `bounding_box` sub-dict of the info dict (keys `min`, `max`,
`size`, source lines 206-210). -/
structure BoundingBoxInfo where
  box_min : ℚ × ℚ × ℚ
  box_max : ℚ × ℚ × ℚ
  size : ℚ × ℚ × ℚ
deriving DecidableEq

/-- The dict returned by `get_model_info` (source lines 152-162). -/
structure ModelInfo where
  valid : Bool
  entities : Nat
  volumes : Nat
  surfaces : Nat
  curves : Nat
  points : Nat
  bounding_box : Option BoundingBoxInfo
  estimated_unit : String
  part_names : List String
deriving DecidableEq

/-- The initial `info` dict (source lines 152-162). -/
def initial_info : ModelInfo :=
  { valid := false, entities := 0, volumes := 0, surfaces := 0, curves := 0, points := 0
    bounding_box := none, estimated_unit := "UNKNOWN", part_names := [] }

/-- The entity-bucketing loop (source lines 192-200): counts of
(points, curves, surfaces, volumes) by topological dimension. -/
def bucket_counts (es : List (Nat × Nat)) : Nat × Nat × Nat × Nat :=
  es.foldl
    (fun c ent =>
      if ent.1 = 0 then (c.1 + 1, c.2.1, c.2.2.1, c.2.2.2)
      else if ent.1 = 1 then (c.1, c.2.1 + 1, c.2.2.1, c.2.2.2)
      else if ent.1 = 2 then (c.1, c.2.1, c.2.2.1 + 1, c.2.2.2)
      else if ent.1 = 3 then (c.1, c.2.1, c.2.2.1, c.2.2.2 + 1)
      else c)
    (0, 0, 0, 0)

/-- The part-name loop of `convert_to_stl` (source lines 292-299): every
nonempty name is appended in entity order, duplicates included.  A raised
`getEntityName` stops the loop keeping the names appended so far; the
whole loop body raising at the first entity leaves the list empty. -/
def collect_names_all : List (Nat × Nat) → (Nat × Nat → Except Unit String) → List String
  | [], _ => []
  | ent :: rest, f =>
    match f ent with
    | .error _ => []
    | .ok n => (if n = "" then [] else [n]) ++ collect_names_all rest f

/-- The part-name loop of `get_model_info` (source lines 226-232), with
the accumulated `info.part_names` list as explicit accumulator: a
nonempty name not already present is appended; a raised `getEntityName`
stops the loop keeping the accumulator. -/
def collect_names_dedup_aux (f : Nat × Nat → Except Unit String) :
    List (Nat × Nat) → List String → List String
  | [], acc => acc
  | ent :: rest, acc =>
    match f ent with
    | .error _ => acc
    | .ok n =>
      if n ≠ "" ∧ n ∉ acc then collect_names_dedup_aux f rest (acc ++ [n])
      else collect_names_dedup_aux f rest acc

def collect_names_dedup (es : List (Nat × Nat)) (f : Nat × Nat → Except Unit String) :
    List String :=
  collect_names_dedup_aux f es []

/-- First-appearance deduplication, stated from the words of the spec
(order of first appearance, duplicates removed); used to compare the
part-name lists the two loops produce. -/
def dedup_first_appearance (l : List String) : List String :=
  l.foldl (fun acc n => if n ∈ acc then acc else acc ++ [n]) []

/-- The bounding-box block (source lines 202-223): skipped when the
entity list is empty; a raising `getBoundingBox` leaves box and unit
untouched (`except Exception: pass`); otherwise the box dict and the
estimated unit are produced from the box extents. -/
def bbox_and_unit (e : GmshEngine) : Option BoundingBoxInfo × String :=
  if e.entities.isEmpty then (none, "UNKNOWN")
  else if e.bbox_ok = false then (none, "UNKNOWN")
  else
    let sx := e.xmax - e.xmin
    let sy := e.ymax - e.ymin
    let sz := e.zmax - e.zmin
    let max_dim := max sx (max sy sz)
    (some { box_min := (e.xmin, e.ymin, e.zmin), box_max := (e.xmax, e.ymax, e.zmax)
            size := (sx, sy, sz) },
     estimate_unit max_dim)

/-- `GmshManager.get_model_info` (source lines 149-244), branch by branch:

* backend unavailable (line 164) — initial dict returned;
* an exception before the load (initialize / Terminal option / model.add,
  lines 170-172) reaches the outer handler at line 237, which returns the
  still-initial dict;
* load failure (inner try, lines 175-184) — finalize, initial dict;
* after a successful load `info.valid` is set `True` (line 186); a raising
  `getEntities` (line 189) then reaches the outer handler, which returns
  the dict as it stands at that point: `valid = True`, all counts still 0;
* otherwise the counts, the bounding box and estimated unit
  (`bbox_and_unit`) and the deduplicated part names are filled in. -/
def get_model_info (e : GmshEngine) : ModelInfo :=
  if e.available = false then initial_info
  else if e.init_ok = false then initial_info
  else if e.load_ok = false then initial_info
  else if e.entities_ok = false then { initial_info with valid := true }
  else
    let es := e.entities
    let counts := bucket_counts es
    let bb_unit := bbox_and_unit e
    { valid := true
      entities := es.length
      points := counts.1
      curves := counts.2.1
      surfaces := counts.2.2.1
      volumes := counts.2.2.2
      bounding_box := bb_unit.1
      estimated_unit := bb_unit.2
      part_names := collect_names_dedup es e.get_name }

/-! ## convert_to_stl (source lines 246-333) -/

/-- The boundary-representation suffix tuple tested at lines 176 and 277. -/
def brep_extensions : List String := [".step", ".stp", ".iges", ".igs", ".brep", ".brp"]

/-- Python `str.lower()` as applied to a filename suffix: lower-case each
character. -/
def str_lower (s : String) : String := String.mk (s.data.map Char.toLower)

/-- The four `setNumber` calls of the healing block (source lines 279-282). -/
def healing_options : List (String × ℚ) :=
  [("Geometry.OCCFixDegenerated", 1),
   ("Geometry.OCCFixSmallEdges", 1),
   ("Geometry.OCCFixSmallFaces", 1),
   ("Geometry.OCCSewFaces", 1)]

/-- The triple returned by `convert_to_stl` together with the sequence of
`gmsh.option.setNumber` calls the run performed, in call order. -/
structure ConvertOutcome where
  success : Bool
  message : String
  part_names : List String
  options_set : List (String × ℚ)
deriving DecidableEq

/-- Oracle for one `convert_to_stl` call; flags as in `GmshEngine`, plus
the error strings gmsh embeds in the failure messages and flags for the
`generate(2)` and `write` steps (source lines 311-322). -/
structure ConvertEngine where
  available : Bool
  init_ok : Bool
  load_ok : Bool
  load_err : String
  entities_ok : Bool
  entities : List (Nat × Nat)
  get_name : Nat × Nat → Except Unit String
  mesh_ok : Bool
  mesh_err : String
  write_ok : Bool
  write_err : String

/-- `GmshManager.convert_to_stl` (source lines 246-333), branch by branch:

* backend unavailable (line 262) — immediate failure, no engine call;
* an exception before the load (initialize / Terminal option / model.add,
  lines 270-273) reaches the outer handler (line 327), a failure triple
  with empty part names and no option recorded yet;
* for a boundary-representation suffix (lowered, line 275) with healing
  requested, the four repair options are set before `importShapes`
  (lines 277-284), so they are recorded even when the import then fails;
* load failure (lines 288-290) — failure triple, empty part names;
* part names are collected without deduplication (lines 292-299), a
  raising `getEntities` or `getEntityName` silently truncating the list;
* the mesh-size, algorithm and optimize options are set (lines 301-308);
* `generate(2)` failure (lines 311-315) and `write` failure (lines
  317-322) return failure triples with empty part names (the collected
  names are dropped on every failure path);
* success returns the collected part names (line 325). -/
def convert_to_stl (e : ConvertEngine) (ext : String) (mesh_size_min mesh_size_max : ℚ)
    (mesh_algorithm : ℚ) (optimize_mesh healing : Bool) : ConvertOutcome :=
  if e.available = false then
    { success := false, message := "gmsh is not installed", part_names := [], options_set := [] }
  else if e.init_ok = false then
    { success := false, message := "Conversion error", part_names := [], options_set := [] }
  else
    let file_ext := str_lower ext
    let trace0 : List (String × ℚ) := [("General.Terminal", 0)]
    let trace1 :=
      trace0 ++ (if brep_extensions.contains file_ext && healing then healing_options else [])
    if e.load_ok = false then
      { success := false, message := "Failed to import CAD file: " ++ e.load_err
        part_names := [], options_set := trace1 }
    else
      let part_names := if e.entities_ok then collect_names_all e.entities e.get_name else []
      let trace2 :=
        trace1 ++
          [("Mesh.CharacteristicLengthMin", mesh_size_min),
           ("Mesh.CharacteristicLengthMax", mesh_size_max),
           ("Mesh.Algorithm", mesh_algorithm)] ++
          (if optimize_mesh then [("Mesh.Optimize", 1), ("Mesh.OptimizeNetgen", 1)] else [])
      if e.mesh_ok = false then
        { success := false, message := "Failed to generate mesh: " ++ e.mesh_err
          part_names := [], options_set := trace2 }
      else if e.write_ok = false then
        { success := false, message := "Failed to write STL: " ++ e.write_err
          part_names := [], options_set := trace2 }
      else
        { success := true, message := "Conversion successful", part_names := part_names
          options_set := trace2 }

/-! ## The modal batch driver (LADDER_OT_import_cad, source lines 1001-1222)

The driver is a tick-driven state machine: Blender delivers `ESC` and
`TIMER` events to `modal`; each `TIMER` tick processes exactly one file
via `_process_current_file` and `_finish` closes the batch on both paths.

The outcome of one file is abstracted by a `FileOutcome` oracle covering
the failure points of `_process_current_file` (lines 1021-1168):
temp-file creation failure (lines 1029-1036), conversion failure (lines
1049-1062), missing output despite reported success (lines 1064-1066),
a raising `stl_import` (lines 1077-1084), and a successful import whose
before/after scene diff yields the given object list (lines 1072-1089,
an empty diff being the no-objects failure at line 1088).

Scene objects and temp files are identified by naturals; the temp file
registered for file `i` is given the id `i` (registration happens right
after `mkstemp`, line 1033, before any failure of the file can occur).
Warnings count the `self.report` calls carrying the `WARNING` tag: the
only such call is the conversion-failure report at line 1061. -/

inductive FileOutcome where
  | tempFail
  | convertFail (msg : String)
  | noOutput
  | importRaise
  | importOk (objs : List Nat)
deriving DecidableEq

/-- Mutable operator state relevant to the batch: `_files_to_process`
(as their per-file outcomes), `_current_index`, `_temp_files`,
`_all_imported_objects`, the number of WARNING reports issued so far,
and `_target_collection` with its current member objects. -/
structure DriverState where
  files : List FileOutcome
  current_index : Nat
  temp_files : List Nat
  all_imported_objects : List Nat
  warnings : Nat
  target_collection : Option (List Nat)
deriving DecidableEq

/-- State produced by `execute` just before the modal loop starts
(source lines 986-989): index 0, no temps, no objects, and the target
collection freshly created (empty) or absent. -/
def init_state (files : List FileOutcome) (target : Option (List Nat)) : DriverState :=
  { files := files, current_index := 0, temp_files := [], all_imported_objects := []
    warnings := 0, target_collection := target }

/-- `_process_current_file` (source lines 1021-1168) acting on the state,
for the file whose oracle outcome is `oc`.  Renaming and per-object
post-processing (lines 1091-1165) mutate only the objects themselves and
are not visible in this state.  On success the new objects are linked
into the target collection when one exists (lines 1116-1120) and appended
to `_all_imported_objects` (line 1167); every failure returns before
both steps. -/
def process_current_file (s : DriverState) (oc : FileOutcome) : DriverState :=
  match oc with
  | .tempFail => s
  | .convertFail _ =>
    { s with temp_files := s.temp_files ++ [s.current_index], warnings := s.warnings + 1 }
  | .noOutput => { s with temp_files := s.temp_files ++ [s.current_index] }
  | .importRaise => { s with temp_files := s.temp_files ++ [s.current_index] }
  | .importOk objs =>
    let s := { s with temp_files := s.temp_files ++ [s.current_index] }
    if objs.isEmpty then s
    else
      { s with all_imported_objects := s.all_imported_objects ++ objs
               target_collection := s.target_collection.map (fun c => c ++ objs) }

/-- What `_finish` (source lines 1170-1222) leaves behind:
`remaining_temp_files` are the registered temp files whose `unlink`
raised (each deletion attempt is wrapped in its own try/except, so one
failure never skips the rest); the other fields echo the final state. -/
structure BatchReport where
  cancelled : Bool
  remaining_temp_files : List Nat
  target_collection : Option (List Nat)
  all_imported_objects : List Nat
  warnings : Nat
  current_index : Nat
deriving DecidableEq

/-- `_finish` (source lines 1170-1222).  `unlink_ok t` says whether
deleting temp file `t` succeeds.  The cleanup loop runs before the
`cancelled` branch, hence on both paths; on cancellation a target
collection that exists and holds no objects is removed (lines
1189-1193). -/
def finish_run (s : DriverState) (unlink_ok : Nat → Bool) (cancelled : Bool) : BatchReport :=
  let remaining := s.temp_files.filter (fun t => !unlink_ok t)
  if cancelled then
    let coll : Option (List Nat) :=
      match s.target_collection with
      | some objs => if objs.isEmpty then none else some objs
      | none => none
    { cancelled := true, remaining_temp_files := remaining, target_collection := coll
      all_imported_objects := s.all_imported_objects, warnings := s.warnings
      current_index := s.current_index }
  else
    { cancelled := false, remaining_temp_files := remaining
      target_collection := s.target_collection
      all_imported_objects := s.all_imported_objects, warnings := s.warnings
      current_index := s.current_index }

inductive Event where
  | esc
  | timer
deriving DecidableEq

/-- Return value of one `modal` invocation: `RUNNING_MODAL` with the
updated state, or the terminal `FINISHED` / `CANCELLED` report. -/
inductive ModalResult where
  | running_modal (s : DriverState)
  | finished (r : BatchReport)
  | cancelled (r : BatchReport)
deriving DecidableEq

/-- `modal` (source lines 1001-1019): `ESC` finishes cancelled before any
further file is processed; a `TIMER` tick finishes the batch when the
index has reached the file count, and otherwise processes exactly the
current file and advances the index.  The result of the per-file call is
inspected only to be ignored (lines 1010-1011): an ERROR never leaves the
loop. -/
def modal (unlink_ok : Nat → Bool) (s : DriverState) : Event → ModalResult
  | .esc => .cancelled (finish_run s unlink_ok true)
  | .timer =>
    if h : s.current_index < s.files.length then
      let s' := process_current_file s (s.files.get ⟨s.current_index, h⟩)
      .running_modal { s' with current_index := s'.current_index + 1 }
    else
      .finished (finish_run s unlink_ok false)

/-- Feeding a stream of events to `modal`: the report of the first
terminal transition, `none` if the stream ends while still running. -/
def run_batch (unlink_ok : Nat → Bool) (s : DriverState) : List Event → Option BatchReport
  | [] => none
  | e :: rest =>
    match modal unlink_ok s e with
    | .running_modal s' => run_batch unlink_ok s' rest
    | .finished r => some r
    | .cancelled r => some r

/-- Objects a file with the given outcome contributes to the batch. -/
def objects_of : FileOutcome → List Nat
  | .importOk objs => objs
  | _ => []

/-- WARNING reports a file with the given outcome triggers. -/
def warnings_of : FileOutcome → Nat
  | .convertFail _ => 1
  | _ => 0

/-! ## Concrete oracles used to evaluate the definitions -/

/-- A run with the gmsh backend not installed. -/
def engine_unavailable : GmshEngine :=
  { available := false, init_ok := true, load_ok := true, entities_ok := true
    entities := [], bbox_ok := true, xmin := 0, ymin := 0, zmin := 0
    xmax := 0, ymax := 0, zmax := 0, get_name := fun _ => .ok "" }

/-- A run in which the file loads but contains no entities: the bounding
box is never computed and the estimated unit stays inconclusive. -/
def engine_inconclusive : GmshEngine :=
  { available := true, init_ok := true, load_ok := true, entities_ok := true
    entities := [], bbox_ok := true, xmin := 0, ymin := 0, zmin := 0
    xmax := 0, ymax := 0, zmax := 0, get_name := fun _ => .ok "" }

/-- A run in which `getEntities` raises after the file loaded. -/
def engine_entities_raise : GmshEngine :=
  { available := true, init_ok := true, load_ok := true, entities_ok := false
    entities := [], bbox_ok := true, xmin := 0, ymin := 0, zmin := 0
    xmax := 0, ymax := 0, zmax := 0, get_name := fun _ => .ok "" }

/-- A fully successful introspection of a model 5 x 1 x 1 units large. -/
def engine_meters : GmshEngine :=
  { available := true, init_ok := true, load_ok := true, entities_ok := true
    entities := [(3, 1)], bbox_ok := true, xmin := 0, ymin := 0, zmin := 0
    xmax := 5, ymax := 1, zmax := 1, get_name := fun _ => .ok "" }

/-- An introspection in which name retrieval raises at the second
entity. -/
def engine_name_raise : GmshEngine :=
  { available := true, init_ok := true, load_ok := true, entities_ok := true
    entities := [(2, 1), (2, 2)], bbox_ok := true, xmin := 0, ymin := 0, zmin := 0
    xmax := 5, ymax := 1, zmax := 1
    get_name := fun ent => if ent.2 = 1 then .ok "A" else .error () }

/-- A fully successful conversion of a model with two entities both
named `A`. -/
def cengine_dup_names : ConvertEngine :=
  { available := true, init_ok := true, load_ok := true, load_err := ""
    entities_ok := true, entities := [(2, 1), (2, 2)]
    get_name := fun _ => .ok "A", mesh_ok := true, mesh_err := ""
    write_ok := true, write_err := "" }

/-- A conversion in which name retrieval raises at the second entity. -/
def cengine_name_raise : ConvertEngine :=
  { available := true, init_ok := true, load_ok := true, load_err := ""
    entities_ok := true, entities := [(2, 1), (2, 2)]
    get_name := fun ent => if ent.2 = 1 then .ok "A" else .error ()
    mesh_ok := true, mesh_err := "", write_ok := true, write_err := "" }

/-- Driver state at the moment a cancel arrives: the first of two files
failed conversion (one temp file registered, one warning, no objects) and
the target collection created by `execute` is still empty. -/
def state_cancel_example : DriverState :=
  { files := [FileOutcome.convertFail "bad geometry", FileOutcome.importOk [8]]
    current_index := 1, temp_files := [0], all_imported_objects := [], warnings := 1
    target_collection := some [] }

end Ladder

namespace Ladder

/-! ## C5: progress_percent -/

/-- C5: `progress_percent` is 0 when `total_files = 0`; otherwise it is
`(current_file / total_files) * 100` plus a `(0.5 / total_files) * 100`
bonus exactly when the phase is `converting`, capped at 100; it is
monotonically non-decreasing in `current_file` for fixed total and phase;
it never exceeds 100; and with total 2, index 0 and phase `converting` it
is strictly between 0 and 50. -/
theorem progress_percent_spec (p : ImportProgress) :
    (p.total_files = 0 → p.progress_percent = 0) ∧
    (p.total_files ≠ 0 →
      p.progress_percent =
        min (((p.current_file : ℚ) / (p.total_files : ℚ)) * 100 +
          (if p.phase = "converting" then ((1/2 : ℚ) / (p.total_files : ℚ)) * 100 else 0))
          100) ∧
    (∀ c c' : Nat, c ≤ c' →
      ({ p with current_file := c } : ImportProgress).progress_percent ≤
        ({ p with current_file := c' } : ImportProgress).progress_percent) ∧
    p.progress_percent ≤ 100 ∧
    (p.total_files = 2 → p.current_file = 0 → p.phase = "converting" →
      0 < p.progress_percent ∧ p.progress_percent < 50) := by
  refine ⟨?_, ?_, ?_, ?_, ?_⟩
  · intro h
    simp [ImportProgress.progress_percent, h]
  · intro h
    simp only [ImportProgress.progress_percent, if_neg h]
    by_cases hc : p.phase = "converting" <;> simp [hc]
  · intro c c' hcc
    by_cases h : p.total_files = 0
    · simp [ImportProgress.progress_percent, h]
    · have hT : (0 : ℚ) < (p.total_files : ℚ) := by
        exact_mod_cast Nat.pos_of_ne_zero h
      have hcast : (c : ℚ) ≤ (c' : ℚ) := by exact_mod_cast hcc
      simp only [ImportProgress.progress_percent, if_neg h]
      refine min_le_min ?_ le_rfl
      by_cases hc : p.phase = "converting"
      · simp only [hc, if_pos]
        gcongr
      · simp only [hc, if_neg, ite_false]
        gcongr
  · by_cases h : p.total_files = 0
    · simp [ImportProgress.progress_percent, h]
    · simp only [ImportProgress.progress_percent, if_neg h]
      exact min_le_right _ _
  · intro h2 h0 hc
    simp [ImportProgress.progress_percent, h2, h0, hc]
    norm_num

/-- Witness for `progress_percent_spec` at concrete states: the empty
batch gives 0, and a 2-file batch mid-conversion of file 1 sits strictly
between 0 and 50 and below the next tick. -/
theorem progress_percent_spec_witness :
    ImportProgress.init.progress_percent = 0 ∧
    (0 < ((ImportProgress.init.start 2).update 0 "part.step" "converting").progress_percent ∧
      ((ImportProgress.init.start 2).update 0 "part.step" "converting").progress_percent < 50) ∧
    ({ (ImportProgress.init.start 2).update 0 "part.step" "converting" with current_file := 0 }
        : ImportProgress).progress_percent ≤
      ({ (ImportProgress.init.start 2).update 0 "part.step" "converting" with current_file := 1 }
        : ImportProgress).progress_percent := by
  refine ⟨(progress_percent_spec ImportProgress.init).1 rfl, ?_, ?_⟩
  · exact (progress_percent_spec
      ((ImportProgress.init.start 2).update 0 "part.step" "converting")).2.2.2.2 rfl rfl rfl
  · exact (progress_percent_spec
      ((ImportProgress.init.start 2).update 0 "part.step" "converting")).2.2.1 0 1 (by decide)

/-! ## C7: status_text -/

/-- C7 (amended): `status_text` is empty whenever the progress object is
not running; when running it equals the addon tag `"Ladder: "` followed
by the phase label (Converting for phase `converting`, Importing
otherwise), the current name and `(index+1/total)`; in particular after
`start 3` and `update 1 "model.step" "converting"` it contains
`Converting`, `model.step` and `2/3`. -/
theorem status_text_spec (p : ImportProgress) :
    (p.is_running = false → p.status_text = "") ∧
    (p.is_running = true →
      p.status_text =
        "Ladder: " ++ (if p.phase = "converting" then "Converting" else "Importing") ++ " " ++
          p.current_filename ++ " (" ++ toString (p.current_file + 1) ++ "/" ++
          toString p.total_files ++ ")") ∧
    ((ImportProgress.init.start 3).update 1 "model.step" "converting").status_text =
      "Ladder: Converting model.step (2/3)" := by
  refine ⟨?_, ?_, by decide⟩
  · intro h
    simp [ImportProgress.status_text, h]
  · intro h
    simp [ImportProgress.status_text, h]

/-- Witness for `status_text_spec`: the fresh tracker is not running and
reports the empty string; a running tracker carries the full formatted
line. -/
theorem status_text_spec_witness :
    ImportProgress.init.status_text = "" ∧
    ((ImportProgress.init.start 3).update 1 "model.step" "converting").status_text =
      "Ladder: Converting model.step (2/3)" :=
  ⟨(status_text_spec ImportProgress.init).1 rfl,
    (status_text_spec ((ImportProgress.init.start 3).update 1 "model.step" "converting")).2.2⟩

/-- C7 counterexample: the claimed equality omits the `"Ladder: "` tag
the f-string always emits, so as stated it fails on the example the
claim itself gives. -/
theorem status_text_counterexample :
    ((ImportProgress.init.start 3).update 1 "model.step" "converting").status_text ≠
      "Converting model.step (2/3)" := by decide

/-! ## C8: unit estimation thresholds -/

/-- C8: for a successful introspection of a model with at least one
entity and a computed bounding box, the estimated unit is read off the
largest box dimension `d` by the fixed thresholds: millimeters when
`d > 1000`, centimeters when `10 < d ≤ 1000`, meters when
`0.1 < d ≤ 10`, and millimeters again when `d ≤ 0.1`. -/
theorem estimated_unit_thresholds (e : GmshEngine)
    (h1 : e.available = true) (h2 : e.init_ok = true) (h3 : e.load_ok = true)
    (h4 : e.entities_ok = true) (h5 : e.entities ≠ []) (h6 : e.bbox_ok = true) :
    (1000 < max (e.xmax - e.xmin) (max (e.ymax - e.ymin) (e.zmax - e.zmin)) →
      (get_model_info e).estimated_unit = "MILLIMETERS") ∧
    (10 < max (e.xmax - e.xmin) (max (e.ymax - e.ymin) (e.zmax - e.zmin)) ∧
        max (e.xmax - e.xmin) (max (e.ymax - e.ymin) (e.zmax - e.zmin)) ≤ 1000 →
      (get_model_info e).estimated_unit = "CENTIMETERS") ∧
    (1/10 < max (e.xmax - e.xmin) (max (e.ymax - e.ymin) (e.zmax - e.zmin)) ∧
        max (e.xmax - e.xmin) (max (e.ymax - e.ymin) (e.zmax - e.zmin)) ≤ 10 →
      (get_model_info e).estimated_unit = "METERS") ∧
    (max (e.xmax - e.xmin) (max (e.ymax - e.ymin) (e.zmax - e.zmin)) ≤ 1/10 →
      (get_model_info e).estimated_unit = "MILLIMETERS") := by
  have hmain : (get_model_info e).estimated_unit =
      estimate_unit (max (e.xmax - e.xmin) (max (e.ymax - e.ymin) (e.zmax - e.zmin))) := by
    simp [get_model_info, h1, h2, h3, h4, bbox_and_unit, h6, List.isEmpty_iff, h5]
  refine ⟨?_, ?_, ?_, ?_⟩
  · intro hd
    rw [hmain]
    simp [estimate_unit, hd]
  · rintro ⟨hd1, hd2⟩
    rw [hmain]
    unfold estimate_unit
    split_ifs <;> first | rfl | linarith
  · rintro ⟨hd1, hd2⟩
    rw [hmain]
    unfold estimate_unit
    split_ifs <;> first | rfl | linarith
  · intro hd
    rw [hmain]
    unfold estimate_unit
    split_ifs <;> first | rfl | linarith

/-- Witness for `estimated_unit_thresholds` at a concrete engine with a
5 x 1 x 1 bounding box: the estimate is meters. -/
theorem estimated_unit_thresholds_witness :
    (get_model_info engine_meters).estimated_unit = "METERS" :=
  (estimated_unit_thresholds engine_meters rfl rfl rfl rfl (by decide) rfl).2.2.1
    (by norm_num [engine_meters])

/-! ## C9: the estimated unit never leaves the four-value range -/

lemma estimate_unit_mem (q : ℚ) :
    estimate_unit q ∈ (["MILLIMETERS", "CENTIMETERS", "METERS"] : List String) := by
  unfold estimate_unit
  split_ifs <;> simp

lemma bbox_and_unit_snd_mem (e : GmshEngine) :
    (bbox_and_unit e).2 ∈
      (["UNKNOWN", "MILLIMETERS", "CENTIMETERS", "METERS"] : List String) := by
  unfold bbox_and_unit
  split_ifs
  · simp
  · simp
  · exact List.mem_cons_of_mem _ (estimate_unit_mem _)

/-- C9: the estimated unit produced by introspection is always one of
UNKNOWN, MILLIMETERS, CENTIMETERS and METERS — never MICROMETERS, INCHES
or FEET — so the scale automatic detection resolves through the table is
always one of 1, 1/1000 and 1/100 (never the micrometer, inch or foot
scale). -/
theorem estimated_unit_range (e : GmshEngine) :
    (get_model_info e).estimated_unit ∈
      (["UNKNOWN", "MILLIMETERS", "CENTIMETERS", "METERS"] : List String) ∧
    (get_model_info e).estimated_unit ≠ "MICROMETERS" ∧
    (get_model_info e).estimated_unit ≠ "INCHES" ∧
    (get_model_info e).estimated_unit ≠ "FEET" ∧
    resolve_unit_scale "AUTO" (get_model_info e).estimated_unit ∈
      ([1, 1/1000, 1/100] : List ℚ) := by
  have hmem : (get_model_info e).estimated_unit ∈
      (["UNKNOWN", "MILLIMETERS", "CENTIMETERS", "METERS"] : List String) := by
    unfold get_model_info
    split_ifs
    · simp [initial_info]
    · simp [initial_info]
    · simp [initial_info]
    · simp [initial_info]
    · exact bbox_and_unit_snd_mem e
  simp only [List.mem_cons, List.not_mem_nil, or_false] at hmem
  rcases hmem with h | h | h | h
  all_goals rw [h]
  · exact ⟨by simp, by simp, by simp, by simp, List.mem_cons_self _ _⟩
  · exact ⟨by simp, by simp, by simp, by simp,
      List.mem_cons_of_mem _ (List.mem_cons_self _ _)⟩
  · exact ⟨by simp, by simp, by simp, by simp,
      List.mem_cons_of_mem _ (List.mem_cons_of_mem _ (List.mem_cons_self _ _))⟩
  · exact ⟨by simp, by simp, by simp, by simp, List.mem_cons_self _ _⟩

/-! ## C2: unit-scale resolution -/

/-- C2 (amended): with automatic detection the effective unit scale is
the UnitScale-table value of the estimated unit when that unit is in the
table, and stays at the initial 1.0 when the estimation is inconclusive
(estimated unit UNKNOWN, which is not a table key); with an explicit unit
the scale is that unit's table value. -/
theorem resolve_unit_scale_spec (e : GmshEngine) (u : String) (s : ℚ) :
    ((get_model_info e).estimated_unit = "MILLIMETERS" →
      resolve_unit_scale "AUTO" (get_model_info e).estimated_unit = 1/1000) ∧
    ((get_model_info e).estimated_unit = "CENTIMETERS" →
      resolve_unit_scale "AUTO" (get_model_info e).estimated_unit = 1/100) ∧
    ((get_model_info e).estimated_unit = "METERS" →
      resolve_unit_scale "AUTO" (get_model_info e).estimated_unit = 1) ∧
    ((get_model_info e).estimated_unit = "UNKNOWN" →
      resolve_unit_scale "AUTO" (get_model_info e).estimated_unit = 1) ∧
    (UNIT_SCALES.lookup u = some s →
      resolve_unit_scale u (get_model_info e).estimated_unit = s) := by
  refine ⟨?_, ?_, ?_, ?_, ?_⟩
  · intro h
    rw [h]
    rfl
  · intro h
    rw [h]
    rfl
  · intro h
    rw [h]
    rfl
  · intro h
    rw [h]
    rfl
  · intro h
    unfold resolve_unit_scale
    split_ifs with ha
    · rw [ha] at h
      have hnone : UNIT_SCALES.lookup "AUTO" = none := by decide
      rw [hnone] at h
      cases h
    · rw [h]

/-- Witness for `resolve_unit_scale_spec`: a 5-unit-wide model estimates
meters, so automatic detection resolves to scale 1; an explicit INCHES
selection resolves to the inch table value. -/
theorem resolve_unit_scale_spec_witness :
    resolve_unit_scale "AUTO" (get_model_info engine_meters).estimated_unit = 1 ∧
    resolve_unit_scale "INCHES" (get_model_info engine_meters).estimated_unit = 254/10000 := by
  have hu : (get_model_info engine_meters).estimated_unit = "METERS" := by
    norm_num [get_model_info, engine_meters, bbox_and_unit, estimate_unit]
  exact ⟨(resolve_unit_scale_spec engine_meters "INCHES" (254/10000)).2.2.1 hu,
    (resolve_unit_scale_spec engine_meters "INCHES" (254/10000)).2.2.2.2 rfl⟩

/-- C2 counterexample: a file that loads but yields no entities leaves
the estimation inconclusive (UNKNOWN); UNKNOWN is not a key of
UNIT_SCALES, so the scale stays at the initial 1.0 instead of the claimed
millimeter scale 0.001. -/
theorem resolve_unit_scale_counterexample :
    (get_model_info engine_inconclusive).valid = true ∧
    (get_model_info engine_inconclusive).estimated_unit = "UNKNOWN" ∧
    resolve_unit_scale "AUTO" (get_model_info engine_inconclusive).estimated_unit = 1 ∧
    resolve_unit_scale "AUTO" (get_model_info engine_inconclusive).estimated_unit ≠ 1/1000 := by
  refine ⟨rfl, rfl, rfl, ?_⟩
  have h : resolve_unit_scale "AUTO" (get_model_info engine_inconclusive).estimated_unit = 1 :=
    rfl
  rw [h]
  norm_num

/-! ## C3: invalid ModelInfo -/

/-- C3 (amended): `get_model_info` is a total function (the embedding of
a method that never raises); on backend unavailability, on an exception
before the load completes, and on load failure it returns an invalid
ModelInfo, and whenever the valid flag is false all entity counts are
zero and the bounding box is absent.  (An exception raised after the
load — see the counterexample — returns a dict whose valid flag is
already true.) -/
theorem get_model_info_invalid_spec (e : GmshEngine) :
    ((e.available = false ∨ e.init_ok = false ∨ e.load_ok = false) →
      (get_model_info e).valid = false) ∧
    ((get_model_info e).valid = false →
      (get_model_info e).points = 0 ∧ (get_model_info e).curves = 0 ∧
      (get_model_info e).surfaces = 0 ∧ (get_model_info e).volumes = 0 ∧
      (get_model_info e).entities = 0 ∧ (get_model_info e).bounding_box = none) := by
  unfold get_model_info
  split_ifs with h1 h2 h3 h4
  · exact ⟨fun _ => rfl, fun _ => ⟨rfl, rfl, rfl, rfl, rfl, rfl⟩⟩
  · exact ⟨fun _ => rfl, fun _ => ⟨rfl, rfl, rfl, rfl, rfl, rfl⟩⟩
  · exact ⟨fun _ => rfl, fun _ => ⟨rfl, rfl, rfl, rfl, rfl, rfl⟩⟩
  · constructor
    · rintro (h | h | h)
      · exact absurd h h1
      · exact absurd h h2
      · exact absurd h h3
    · intro hv
      exact absurd hv (by simp [initial_info])
  · constructor
    · rintro (h | h | h)
      · exact absurd h h1
      · exact absurd h h2
      · exact absurd h h3
    · intro hv
      exact hv.elim

/-- Witness for `get_model_info_invalid_spec`: with the backend
unavailable the result is invalid, with zero counts and no bounding
box. -/
theorem get_model_info_invalid_spec_witness :
    (get_model_info engine_unavailable).valid = false ∧
    (get_model_info engine_unavailable).entities = 0 ∧
    (get_model_info engine_unavailable).bounding_box = none := by
  have hv := (get_model_info_invalid_spec engine_unavailable).1 (Or.inl rfl)
  have hz := (get_model_info_invalid_spec engine_unavailable).2 hv
  exact ⟨hv, hz.2.2.2.2.1, hz.2.2.2.2.2⟩

/-- C3 counterexample: when `getEntities` raises after a successful load
(the outer handler at line 237 then returns the dict as mutated at line
186), the returned ModelInfo has its valid flag true, contradicting the
claim that any uncaught exception yields an invalid ModelInfo. -/
theorem get_model_info_exception_counterexample :
    engine_entities_raise.available = true ∧ engine_entities_raise.init_ok = true ∧
    engine_entities_raise.load_ok = true ∧ engine_entities_raise.entities_ok = false ∧
    (get_model_info engine_entities_raise).valid = true :=
  ⟨rfl, rfl, rfl, rfl, rfl⟩

/-! ## C6: part-name collection -/

lemma collect_names_dedup_aux_eq (f : Nat × Nat → Except Unit String)
    (es : List (Nat × Nat)) :
    ∀ acc : List String,
      collect_names_dedup_aux f es acc =
        (collect_names_all es f).foldl (fun a n => if n ∈ a then a else a ++ [n]) acc := by
  induction es with
  | nil =>
    intro acc
    rfl
  | cons ent rest ih =>
    intro acc
    simp only [collect_names_dedup_aux, collect_names_all]
    cases hf : f ent with
    | error u => simp
    | ok n =>
      by_cases hn : n = ""
      · subst hn
        simp [ih]
      · by_cases hm : n ∈ acc
        · simp [hn, hm, ih]
        · simp [hn, hm, ih]

lemma collect_names_dedup_eq (es : List (Nat × Nat)) (f : Nat × Nat → Except Unit String) :
    collect_names_dedup es f = dedup_first_appearance (collect_names_all es f) :=
  collect_names_dedup_aux_eq f es []

lemma dedup_foldl_nodup (l : List String) :
    ∀ acc : List String, acc.Nodup →
      (l.foldl (fun a n => if n ∈ a then a else a ++ [n]) acc).Nodup := by
  induction l with
  | nil =>
    intro acc h
    exact h
  | cons n rest ih =>
    intro acc h
    simp only [List.foldl_cons]
    by_cases hm : n ∈ acc
    · rw [if_pos hm]
      exact ih acc h
    · rw [if_neg hm]
      refine ih _ ?_
      simp [List.nodup_append, h, hm]

lemma get_model_info_part_names (e : GmshEngine) (h1 : e.available = true)
    (h2 : e.init_ok = true) (h3 : e.load_ok = true) (h4 : e.entities_ok = true) :
    (get_model_info e).part_names = collect_names_dedup e.entities e.get_name ∧
    (get_model_info e).valid = true := by
  unfold get_model_info
  simp [h1, h2, h3, h4]

/-- C6 (amended): introspection returns the named entities in order of
first appearance with duplicates removed (hence a duplicate-free list),
while conversion returns every named entity in entity order with
duplicates retained; in both, a failure while retrieving names (any
behaviour of `get_name`, including raising at any point) is silently
ignored: it truncates the name list but leaves the probe valid and the
conversion successful. -/
theorem part_names_collection_spec (e : GmshEngine) (ce : ConvertEngine) (ext : String)
    (msmin msmax alg : ℚ) (opt heal : Bool)
    (h1 : e.available = true) (h2 : e.init_ok = true) (h3 : e.load_ok = true)
    (h4 : e.entities_ok = true)
    (k1 : ce.available = true) (k2 : ce.init_ok = true) (k3 : ce.load_ok = true)
    (k4 : ce.entities_ok = true) (k5 : ce.mesh_ok = true) (k6 : ce.write_ok = true) :
    (get_model_info e).part_names =
      dedup_first_appearance (collect_names_all e.entities e.get_name) ∧
    ((get_model_info e).part_names).Nodup ∧
    (get_model_info e).valid = true ∧
    (convert_to_stl ce ext msmin msmax alg opt heal).part_names =
      collect_names_all ce.entities ce.get_name ∧
    (convert_to_stl ce ext msmin msmax alg opt heal).success = true := by
  obtain ⟨hp, hv⟩ := get_model_info_part_names e h1 h2 h3 h4
  have hdedup := collect_names_dedup_eq e.entities e.get_name
  refine ⟨hp.trans hdedup, ?_, hv, ?_, ?_⟩
  · rw [hp, hdedup]
    exact dedup_foldl_nodup _ [] List.nodup_nil
  · unfold convert_to_stl
    simp [k1, k2, k3, k4, k5, k6]
  · unfold convert_to_stl
    simp [k1, k2, k3, k5, k6]

/-- Witness for `part_names_collection_spec`: a name retrieval that
raises at the second of two entities leaves the first collected name in
place and neither invalidates the probe nor fails the conversion. -/
theorem part_names_collection_spec_witness :
    (get_model_info engine_name_raise).valid = true ∧
    (get_model_info engine_name_raise).part_names = ["A"] ∧
    (convert_to_stl cengine_name_raise ".step" 1 10 6 false false).success = true := by
  have h := part_names_collection_spec engine_name_raise cengine_name_raise ".step" 1 10 6
    false false rfl rfl rfl rfl rfl rfl rfl rfl rfl rfl
  refine ⟨h.2.2.1, ?_, h.2.2.2.2⟩
  rw [h.1]
  rfl

/-- C6 counterexample: a conversion whose two entities carry the same
name returns the list with the duplicate retained, so the conversion
part-name list is not deduplicated as claimed. -/
theorem convert_part_names_counterexample :
    (convert_to_stl cengine_dup_names ".step" 1 10 6 false false).part_names = ["A", "A"] ∧
    (convert_to_stl cengine_dup_names ".step" 1 10 6 false false).part_names ≠
      dedup_first_appearance
        (convert_to_stl cengine_dup_names ".step" 1 10 6 false false).part_names ∧
    ¬ ((convert_to_stl cengine_dup_names ".step" 1 10 6 false false).part_names).Nodup := by
  decide

/-! ## C10: healing options -/

lemma convert_options_cases (e : ConvertEngine) (ext : String) (msmin msmax alg : ℚ)
    (opt healing : Bool) (h1 : e.available = true) (h2 : e.init_ok = true) :
    (convert_to_stl e ext msmin msmax alg opt healing).options_set =
      [(("General.Terminal" : String), (0 : ℚ))] ++
        (if brep_extensions.contains (str_lower ext) && healing then healing_options
         else []) ∨
    (convert_to_stl e ext msmin msmax alg opt healing).options_set =
      [(("General.Terminal" : String), (0 : ℚ))] ++
        (if brep_extensions.contains (str_lower ext) && healing then healing_options
         else []) ++
        [("Mesh.CharacteristicLengthMin", msmin), ("Mesh.CharacteristicLengthMax", msmax),
         ("Mesh.Algorithm", alg)] ++
        (if opt then [(("Mesh.Optimize" : String), (1 : ℚ)), ("Mesh.OptimizeNetgen", 1)]
         else []) := by
  unfold convert_to_stl
  rw [if_neg (by simp [h1]), if_neg (by simp [h2])]
  cases hl : e.load_ok with
  | false =>
    left
    simp
  | true =>
    right
    cases hm : e.mesh_ok <;> cases hw : e.write_ok <;> simp [List.append_assoc]

lemma healing_pair_mem (o : String × ℚ) (ho : o ∈ healing_options)
    (msmin msmax alg : ℚ) (opt : Bool) (hb : Bool) :
    (o ∈ [(("General.Terminal" : String), (0 : ℚ))] ++
        (if hb then healing_options else []) ↔ hb = true) ∧
    (o ∈ [(("General.Terminal" : String), (0 : ℚ))] ++
        (if hb then healing_options else []) ++
        [("Mesh.CharacteristicLengthMin", msmin), ("Mesh.CharacteristicLengthMax", msmax),
         ("Mesh.Algorithm", alg)] ++
        (if opt then [(("Mesh.Optimize" : String), (1 : ℚ)), ("Mesh.OptimizeNetgen", 1)]
         else []) ↔ hb = true) := by
  simp only [healing_options, List.mem_cons, List.not_mem_nil, or_false] at ho
  cases hb
  · rcases ho with rfl | rfl | rfl | rfl <;> cases opt <;> simp [healing_options]
  · rcases ho with rfl | rfl | rfl | rfl <;> cases opt <;> simp [healing_options]

/-- C10: the four geometry-healing engine options appear among the
engine options set by a conversion exactly when healing is requested and
the lower-cased input suffix is one of the six boundary-representation
suffixes; for any other suffix (routed through generic merge) the
healing flag has no effect on the conversion at all. -/
theorem convert_healing_options_spec (e : ConvertEngine) (ext : String)
    (msmin msmax alg : ℚ) (opt healing : Bool)
    (h1 : e.available = true) (h2 : e.init_ok = true) :
    (∀ o ∈ healing_options,
      (o ∈ (convert_to_stl e ext msmin msmax alg opt healing).options_set ↔
        (brep_extensions.contains (str_lower ext) && healing) = true)) ∧
    (brep_extensions.contains (str_lower ext) = false →
      convert_to_stl e ext msmin msmax alg opt true =
        convert_to_stl e ext msmin msmax alg opt false) := by
  constructor
  · intro o ho
    rcases convert_options_cases e ext msmin msmax alg opt healing h1 h2 with hc | hc
    · rw [hc]
      exact (healing_pair_mem o ho msmin msmax alg opt _).1
    · rw [hc]
      exact (healing_pair_mem o ho msmin msmax alg opt _).2
  · intro hb
    have hb' : ¬ (str_lower ext ∈ brep_extensions) := by simpa using hb
    unfold convert_to_stl
    simp [hb, hb']

/-- Witness for `convert_healing_options_spec`: converting an upper-case
`.STEP` file with healing requested records the first healing option, and
for a `.xyz` file the healing flag is inert. -/
theorem convert_healing_options_spec_witness :
    (("Geometry.OCCFixDegenerated" : String), (1 : ℚ)) ∈
      (convert_to_stl cengine_name_raise ".STEP" 1 10 6 false true).options_set ∧
    convert_to_stl cengine_name_raise ".xyz" 1 10 6 false true =
      convert_to_stl cengine_name_raise ".xyz" 1 10 6 false false := by
  constructor
  · exact ((convert_healing_options_spec cengine_name_raise ".STEP" 1 10 6 false true
      rfl rfl).1 _ (by simp [healing_options])).mpr (by decide)
  · exact (convert_healing_options_spec cengine_name_raise ".xyz" 1 10 6 false true
      rfl rfl).2 (by decide)

/-! ## C1: per-file failure isolation in the batch driver -/

lemma process_current_file_fields (s : DriverState) (oc : FileOutcome) :
    (process_current_file s oc).files = s.files ∧
    (process_current_file s oc).current_index = s.current_index ∧
    (process_current_file s oc).all_imported_objects =
      s.all_imported_objects ++ objects_of oc ∧
    (process_current_file s oc).warnings = s.warnings + warnings_of oc := by
  cases oc with
  | tempFail => simp [process_current_file, objects_of, warnings_of]
  | convertFail m => simp [process_current_file, objects_of, warnings_of]
  | noOutput => simp [process_current_file, objects_of, warnings_of]
  | importRaise => simp [process_current_file, objects_of, warnings_of]
  | importOk objs =>
    by_cases h : objs.isEmpty = true
    · have he : objs = [] := by simpa [List.isEmpty_iff] using h
      subst he
      simp [process_current_file, objects_of, warnings_of]
    · simp [process_current_file, h, objects_of, warnings_of]

lemma run_batch_timer_run (u : Nat → Bool) :
    ∀ (n : Nat) (s : DriverState), s.files.length - s.current_index = n →
      s.current_index ≤ s.files.length →
      ∃ r, run_batch u s (List.replicate (n + 1) Event.timer) = some r ∧
        r.cancelled = false ∧
        r.all_imported_objects =
          s.all_imported_objects ++ ((s.files.drop s.current_index).map objects_of).flatten ∧
        r.warnings = s.warnings + ((s.files.drop s.current_index).map warnings_of).sum ∧
        r.current_index = s.files.length := by
  intro n
  induction n with
  | zero =>
    intro s h0 hle
    have heq : s.current_index = s.files.length := by omega
    have hmodal : modal u s Event.timer = ModalResult.finished (finish_run s u false) := by
      unfold modal
      rw [dif_neg (by omega)]
    refine ⟨finish_run s u false, ?_, rfl, ?_, ?_, ?_⟩
    · simp [List.replicate, run_batch, hmodal]
    · simp [finish_run, heq, List.drop_length]
    · simp [finish_run, heq, List.drop_length]
    · simp [finish_run, heq]
  | succ n ih =>
    intro s h0 hle
    have hlt : s.current_index < s.files.length := by omega
    obtain ⟨hf, hi, ho, hw⟩ :=
      process_current_file_fields s (s.files.get ⟨s.current_index, hlt⟩)
    set s1 := process_current_file s (s.files.get ⟨s.current_index, hlt⟩) with hs1
    set s2 : DriverState := { s1 with current_index := s1.current_index + 1 } with hs2
    have hmodal : modal u s Event.timer = ModalResult.running_modal s2 := by
      unfold modal
      rw [dif_pos hlt]
    have hs2f : s2.files = s.files := hf
    have hs2i : s2.current_index = s.current_index + 1 := by
      show s1.current_index + 1 = s.current_index + 1
      rw [hi]
    obtain ⟨r, hr, hc, hobjs, hwarn, hidx⟩ := ih s2
      (by rw [hs2f, hs2i]; omega) (by rw [hs2f, hs2i]; omega)
    have hdrop : s.files.drop s.current_index =
        s.files.get ⟨s.current_index, hlt⟩ :: s.files.drop (s.current_index + 1) :=
      List.drop_eq_get_cons hlt
    refine ⟨r, ?_, hc, ?_, ?_, ?_⟩
    · have hrep : List.replicate (n + 1 + 1) Event.timer =
          Event.timer :: List.replicate (n + 1) Event.timer := rfl
      rw [hrep]
      simp only [run_batch, hmodal]
      exact hr
    · calc r.all_imported_objects
          = s2.all_imported_objects ++
              ((s.files.drop (s.current_index + 1)).map objects_of).flatten := by
            rw [hobjs, hs2f, hs2i]
        _ = (s.all_imported_objects ++ objects_of (s.files.get ⟨s.current_index, hlt⟩)) ++
              ((s.files.drop (s.current_index + 1)).map objects_of).flatten := by
            rw [show s2.all_imported_objects = s1.all_imported_objects from rfl, ho]
        _ = s.all_imported_objects ++
              ((s.files.drop s.current_index).map objects_of).flatten := by
            rw [hdrop, List.map_cons, List.flatten_cons, List.append_assoc]
    · calc r.warnings
          = s2.warnings + ((s.files.drop (s.current_index + 1)).map warnings_of).sum := by
            rw [hwarn, hs2f, hs2i]
        _ = (s.warnings + warnings_of (s.files.get ⟨s.current_index, hlt⟩)) +
              ((s.files.drop (s.current_index + 1)).map warnings_of).sum := by
            rw [show s2.warnings = s1.warnings from rfl, hw]
        _ = s.warnings + ((s.files.drop s.current_index).map warnings_of).sum := by
            rw [hdrop, List.map_cons, List.sum_cons, Nat.add_assoc]
    · rw [hidx, hs2f]

/-- C1 (amended): for every batch, every file whose conversion or import
fails (failure result, missing output, import exception, or no new
objects) contributes zero objects to the accumulated list (`objects_of`
is empty on every non-successful outcome), the driver advances past it,
and the batch still terminates in the FINISHED state; a user-visible
WARNING is produced exactly for conversion-failure results
(`warnings_of` is 1 there and 0 for missing output, import exceptions
and empty imports, which are only logged). -/
theorem batch_failure_isolation (u : Nat → Bool) (files : List FileOutcome)
    (target : Option (List Nat)) :
    ∃ r, run_batch u (init_state files target)
        (List.replicate (files.length + 1) Event.timer) = some r ∧
      r.cancelled = false ∧
      r.all_imported_objects = (files.map objects_of).flatten ∧
      r.warnings = (files.map warnings_of).sum ∧
      r.current_index = files.length ∧
      (∀ m, objects_of (FileOutcome.convertFail m) = [] ∧
        warnings_of (FileOutcome.convertFail m) = 1) ∧
      objects_of FileOutcome.noOutput = [] ∧ warnings_of FileOutcome.noOutput = 0 ∧
      objects_of FileOutcome.importRaise = [] ∧ warnings_of FileOutcome.importRaise = 0 ∧
      objects_of (FileOutcome.importOk []) = [] ∧
      warnings_of (FileOutcome.importOk []) = 0 := by
  obtain ⟨r, hr, hc, hobjs, hwarn, hidx⟩ :=
    run_batch_timer_run u files.length (init_state files target) (by simp [init_state])
      (by simp [init_state])
  refine ⟨r, ?_, hc, ?_, ?_, ?_, fun m => ⟨rfl, rfl⟩, rfl, rfl, rfl, rfl, rfl, rfl⟩
  · simpa [init_state] using hr
  · simpa [init_state] using hobjs
  · simpa [init_state] using hwarn
  · simpa [init_state] using hidx

/-- C1 counterexample: a one-file batch whose file fails with a missing
output reaches FINISHED with zero accumulated objects but also with zero
warnings, not the one warning the claim promises for every failure
kind. -/
theorem batch_warning_counterexample :
    (run_batch (fun _ => true) (init_state [FileOutcome.noOutput] none)
        [Event.timer, Event.timer]).map BatchReport.warnings = some 0 ∧
    (run_batch (fun _ => true) (init_state [FileOutcome.noOutput] none)
        [Event.timer, Event.timer]).map BatchReport.warnings ≠ some 1 ∧
    (run_batch (fun _ => true) (init_state [FileOutcome.noOutput] none)
        [Event.timer, Event.timer]).map BatchReport.cancelled = some false ∧
    (run_batch (fun _ => true) (init_state [FileOutcome.noOutput] none)
        [Event.timer, Event.timer]).map BatchReport.all_imported_objects = some [] := by
  refine ⟨rfl, ?_, rfl, rfl⟩
  intro h
  simp [run_batch, modal, init_state, process_current_file, finish_run] at h

/-! ## C4: cleanup on both exits, cancellation semantics -/

/-- C4: on both batch outcomes the cleanup loop of `_finish` attempts to
delete every registered temporary file, one try/except per file, so a
file whose deletion succeeds is gone and individual failures are
swallowed (exactly the temps whose unlink fails remain, independent of
the outcome); an ESC event finishes as CANCELLED immediately, processing
no further file (index and object list unchanged); and a target
collection that exists with zero objects is removed on cancellation. -/
theorem finish_cleanup_spec (s : DriverState) (u : Nat → Bool) :
    (∀ c : Bool, (finish_run s u c).remaining_temp_files =
      s.temp_files.filter (fun t => !u t)) ∧
    (∀ c : Bool, ∀ t, t ∈ s.temp_files → u t = true →
      t ∉ (finish_run s u c).remaining_temp_files) ∧
    modal u s Event.esc = ModalResult.cancelled (finish_run s u true) ∧
    (finish_run s u true).cancelled = true ∧
    (finish_run s u true).current_index = s.current_index ∧
    (finish_run s u true).all_imported_objects = s.all_imported_objects ∧
    (s.target_collection = some [] → (finish_run s u true).target_collection = none) ∧
    (s.current_index ≥ s.files.length →
      modal u s Event.timer = ModalResult.finished (finish_run s u false)) ∧
    (finish_run s u false).cancelled = false := by
  refine ⟨?_, ?_, rfl, rfl, rfl, rfl, ?_, ?_, rfl⟩
  · intro c
    cases c <;> rfl
  · intro c t hmem hok
    cases c <;> simp [finish_run, List.mem_filter, hok]
  · intro h
    simp [finish_run, h]
  · intro h
    unfold modal
    rw [dif_neg (by omega)]

/-- Witness for `finish_cleanup_spec` at a concrete mid-batch state with
an empty target collection: the temp file whose unlink succeeds is gone,
the one whose unlink fails remains (swallowed, not fatal), the empty
collection is removed, and the index is frozen at 1. -/
theorem finish_cleanup_spec_witness :
    (0 ∉ (finish_run state_cancel_example (fun t => t == 0) true).remaining_temp_files) ∧
    (finish_run state_cancel_example (fun t => t == 0) true).target_collection = none ∧
    (finish_run state_cancel_example (fun t => t == 0) true).current_index = 1 ∧
    modal (fun t => t == 0) state_cancel_example Event.esc =
      ModalResult.cancelled (finish_run state_cancel_example (fun t => t == 0) true) := by
  refine ⟨?_, ?_, ?_, ?_⟩
  · exact (finish_cleanup_spec state_cancel_example (fun t => t == 0)).2.1 true 0
      (by simp [state_cancel_example]) rfl
  · exact (finish_cleanup_spec state_cancel_example (fun t => t == 0)).2.2.2.2.2.2.1 rfl
  · exact (finish_cleanup_spec state_cancel_example (fun t => t == 0)).2.2.2.2.1
  · exact (finish_cleanup_spec state_cancel_example (fun t => t == 0)).2.2.1

end Ladder
